import Mathlib

/-!
Verification development for the insider-trading ingestion and aggregation
pipeline of the Insider-Website-Platform repository.

The definitions below are shallow embeddings of the Python source:
numeric columns (Decimal/float) become rationals, dates become natural-number
day stamps, SQL rows become Lean structures, and the ORM session becomes an
explicit store that each operation threads through.  Each definition's doc
comment names the source function it embeds.
-/

namespace InsiderPlatform

/-- Embedding of Python str.upper over the character list of the string
(structural, so that proofs can evaluate it). -/
def py_upper (s : String) : String := ⟨s.data.map Char.toUpper⟩

/-- Embedding of Python str.strip with no argument: remove leading and
trailing whitespace. -/
def py_strip (s : String) : String :=
  ⟨((s.data.dropWhile Char.isWhitespace).reverse.dropWhile Char.isWhitespace).reverse⟩

/-- Embedding of the Python slice s[:n]. -/
def py_take (s : String) (n : Nat) : String := ⟨s.data.take n⟩

/-- Splitter for Python str.split with no argument, over character lists:
acc holds the reversed current word. -/
def split_ws_chars (acc : List Char) : List Char → List (List Char)
  | [] => [acc.reverse]
  | c :: rest =>
    if c.isWhitespace then acc.reverse :: split_ws_chars [] rest
    else split_ws_chars (c :: acc) rest

/-- Embedding of Python str.split with no argument: split on whitespace
runs, dropping empty segments. -/
def py_split_ws (s : String) : List String :=
  ((split_ws_chars [] s.data).filter (fun w => w ≠ [])).map (fun w => ⟨w⟩)

/-- Left-to-right, non-overlapping replacement of a nonempty pattern in a
character list; the fuel argument (instantiated with the list length, an
upper bound on the number of steps) makes the recursion structural. -/
def replace_fuel (pat rep : List Char) : Nat → List Char → List Char
  | _, [] => []
  | 0, l => l
  | Nat.succ fuel, c :: rest =>
    if pat ≠ [] ∧ pat.isPrefixOf (c :: rest)
    then rep ++ replace_fuel pat rep fuel (List.drop (pat.length - 1) rest)
    else c :: replace_fuel pat rep fuel rest

/-- Embedding of Python str.replace(pat, rep) for nonempty pat: replace
every non-overlapping occurrence, scanning left to right. -/
def py_replace (s pat rep : String) : String :=
  ⟨replace_fuel pat.data rep.data s.data.length s.data⟩

/-- Embedding of a row of the trades table (app/models.py, class Trade):
the columns that ingestion writes and the aggregation engine reads.
Numeric columns are rationals, the transaction date is a day stamp, and the
nullable enrichment columns (current_price and the three return horizons)
are options. -/
structure TradeRec where
  trader_id : Nat
  company_ticker : String
  transaction_date : Nat
  transaction_type : String
  shares_traded : ℚ
  price_per_share : ℚ
  total_value : ℚ
  current_price : Option ℚ
  return_30d : Option ℚ
  return_90d : Option ℚ
  return_1y : Option ℚ
deriving DecidableEq, Repr

/-- Embedding of a row of the traders table (app/models.py, class Trader):
identity columns plus the trade counter that ingestion maintains. -/
structure TraderRec where
  trader_id : Nat
  name : String
  title : String
  company_ticker : String
  company_name : String
  relationship_to_company : String
  total_trades : Nat
deriving DecidableEq, Repr

/-- Embedding of the transaction-code dictionary of
comprehensive_sec_ingestion.convert_transaction_code.  Note the source
dictionary has no entry for the code C. -/
def comprehensive_code_map : List (String × String) :=
  [("A", "BUY"), ("D", "SELL"), ("P", "BUY"), ("S", "SELL"),
   ("M", "OPTION_EXERCISE"), ("F", "TAX_WITHHOLDING"),
   ("G", "GIFT"), ("V", "OTHER"), ("J", "OTHER"), ("K", "OTHER"), ("W", "OTHER")]

/-- Embedding of RobustSECProcessor.transaction_code_map
(robust_sec_processor.py). -/
def robust_code_map : List (String × String) :=
  [("A", "BUY"), ("D", "SELL"), ("P", "BUY"), ("S", "SELL"),
   ("M", "OPTION_EXERCISE"), ("F", "TAX_WITHHOLDING"),
   ("G", "GIFT"), ("J", "OTHER"), ("K", "OTHER"), ("V", "OTHER"),
   ("W", "OTHER"), ("C", "CONVERSION"), ("I", "OTHER"),
   ("L", "OTHER"), ("O", "OTHER"), ("X", "OTHER"), ("U", "OTHER")]

/-- Embedding of Python dict.get(key, default) over an association list. -/
def dict_get (m : List (String × String)) (key default : String) : String :=
  match m.find? (fun p => p.fst == key) with
  | some p => p.snd
  | none => default

/-- Embedding of comprehensive_sec_ingestion.convert_transaction_code:
code_map.get(code.upper(), the string OTHER). -/
def convert_transaction_code (code : String) : String :=
  dict_get comprehensive_code_map (py_upper code) "OTHER"

/-- Embedding of the robust processor's code normalization,
transaction_code_map.get(trans_code, the string OTHER)
(robust_sec_processor.py, extract_and_validate_transaction). -/
def robust_convert_code (code : String) : String :=
  dict_get robust_code_map code "OTHER"

/-- Embedding of RobustSECProcessor.MAX_PRICE. -/
def MAX_PRICE : ℚ := 10000

/-- Embedding of RobustSECProcessor.MAX_SHARES. -/
def MAX_SHARES : ℚ := 10000000

/-- Embedding of RobustSECProcessor.MAX_TOTAL_VALUE. -/
def MAX_TOTAL_VALUE : ℚ := 1000000000

/-- Embedding of RobustSECProcessor.validate_trade_data.  The pandas NaN
guard of the source has no counterpart over rationals; the three numeric
range checks are translated verbatim. -/
def validate_trade_data (shares price : ℚ) : Bool :=
  if shares ≤ 0 ∨ MAX_SHARES < shares then false
  else if price ≤ 0 ∨ MAX_PRICE < price then false
  else if MAX_TOTAL_VALUE < shares * price then false
  else true

/-- Embedding of the mutable performance columns of a traders row that
performance_calc.PerformanceCalculator.calculate_trader_performance reads
and writes, together with the last_calculated stamp (a day stamp option). -/
structure TraderPerf where
  total_trades : Nat
  total_profit_loss : ℚ
  win_rate : ℚ
  avg_return_30d : ℚ
  avg_return_90d : ℚ
  avg_return_1y : ℚ
  performance_score : ℚ
  last_calculated : Option Nat
  updated_at : Option Nat
deriving DecidableEq, Repr

/-- Embedding of the buy-classification test of performance_calc:
trade.transaction_type.upper() in the list BUY, P, A. -/
def is_buy_type (ty : String) : Bool :=
  py_upper ty == "BUY" || py_upper ty == "P" || py_upper ty == "A"

/-- Embedding of the buy_trades list comprehension of
calculate_trader_performance. -/
def buy_trades (trades : List TradeRec) : List TradeRec :=
  trades.filter (fun t => is_buy_type t.transaction_type)

/-- Embedding of the returns_30d list comprehension: the populated
return_30d values of the buy trades. -/
def returns_30d (trades : List TradeRec) : List ℚ :=
  (buy_trades trades).filterMap (fun t => t.return_30d)

/-- Embedding of the returns_90d list comprehension. -/
def returns_90d (trades : List TradeRec) : List ℚ :=
  (buy_trades trades).filterMap (fun t => t.return_90d)

/-- Embedding of the returns_1y list comprehension. -/
def returns_1y (trades : List TradeRec) : List ℚ :=
  (buy_trades trades).filterMap (fun t => t.return_1y)

/-- Sum of a list of rationals (Python sum). -/
def rat_sum (l : List ℚ) : ℚ := l.foldl (fun a b => a + b) 0

/-- Arithmetic mean with the source's zero default: sum(rs)/len(rs) when
the list is nonempty, otherwise Decimal zero. -/
def mean_or_zero (rs : List ℚ) : ℚ :=
  if rs.isEmpty then 0 else rat_sum rs / (rs.length : ℚ)

/-- Embedding of the win-rate computation of calculate_trader_performance:
(profitable_trades / len(returns_30d)) * 100 when returns_30d is nonempty,
otherwise zero, where profitable_trades counts the positive entries. -/
def win_rate_calc (trades : List TradeRec) : ℚ :=
  let r30 := returns_30d trades
  if r30.isEmpty then 0
  else (((r30.filter (fun r => 0 < r)).length : ℚ) / (r30.length : ℚ)) * 100

/-- Embedding of the total profit/loss loop of calculate_trader_performance.
The source guard is Python truthiness: a trade contributes only when
current_price is non-null and nonzero and price_per_share is nonzero. -/
def total_pl_calc (trades : List TradeRec) : ℚ :=
  rat_sum ((buy_trades trades).map (fun t =>
    match t.current_price with
    | some cp => if cp ≠ 0 ∧ t.price_per_share ≠ 0
        then (cp - t.price_per_share) * t.shares_traded else 0
    | none => 0))

/-- Embedding of the trades_factor line of calculate_trader_performance:
min(len(buy_trades) / 10, 1) * 10.  The count is of buy trades, not of all
trades. -/
def trades_factor (trades : List TradeRec) : ℚ :=
  min (((buy_trades trades).length : ℚ) / 10) 1 * 10

/-- Embedding of the composite score of calculate_trader_performance:
avg_return_90d * 0.4 + win_rate * 0.3 + trades_factor * 0.3, computed from
the freshly assigned averages and win rate. -/
def performance_score_calc (trades : List TradeRec) : ℚ :=
  mean_or_zero (returns_90d trades) * (4 / 10 : ℚ)
    + win_rate_calc trades * (3 / 10 : ℚ)
    + trades_factor trades * (3 / 10 : ℚ)

/-- Embedding of PerformanceCalculator.calculate_trader_performance
(performance_calc.py): given the recompute time, the trader's current
performance columns and the trader's trades, returns the trader's columns
after the call.  The source returns early, leaving every column untouched,
when the trader has no trades or no buy-classified trades. -/
def calculate_trader_performance (now : Nat) (trader : TraderPerf)
    (trades : List TradeRec) : TraderPerf :=
  if trades.isEmpty then trader
  else if (buy_trades trades).isEmpty then trader
  else
    { trader with
      avg_return_30d := mean_or_zero (returns_30d trades),
      avg_return_90d := mean_or_zero (returns_90d trades),
      avg_return_1y := mean_or_zero (returns_1y trades),
      win_rate := win_rate_calc trades,
      total_profit_loss := total_pl_calc trades,
      total_trades := trades.length,
      performance_score := performance_score_calc trades,
      last_calculated := some now,
      updated_at := some now }

/-- Formula of the specification text for the composite score, written from
the spec's words for refinement comparison with the source's
performance_score_calc: 0.4 x avg_return_90d + 0.3 x win_rate +
0.3 x min(total_trades / 10, 1) x 10, with total_trades the count of all of
the trader's trades. -/
def spec_performance_score (trades : List TradeRec) : ℚ :=
  (4 / 10 : ℚ) * mean_or_zero (returns_90d trades)
    + (3 / 10 : ℚ) * win_rate_calc trades
    + (3 / 10 : ℚ) * (min ((trades.length : ℚ) / 10) 1 * 10)

/-- Embedding of the transaction_data dictionary handed to
save_transaction_to_db (comprehensive_sec_ingestion.py,
extract_transaction_data). -/
structure TxData where
  company_name : String
  ticker : String
  owner_name : String
  owner_title : String
  transaction_date : Nat
  transaction_type : String
  shares : ℚ
  price_per_share : ℚ
  total_value : ℚ
deriving DecidableEq, Repr

/-- Embedding of the database session state seen by ingestion: the traders
and trades tables plus the trader-id sequence counter. -/
structure Store where
  traders : List TraderRec
  trades : List TradeRec
  next_trader_id : Nat
deriving DecidableEq, Repr

/-- Embedding of the trader lookup of save_transaction_to_db:
query(Trader).filter(name == owner_name, company_ticker == ticker).first().
The SQL string comparison is exact (case-sensitive). -/
def find_trader (ts : List TraderRec) (nm tick : String) : Option TraderRec :=
  ts.find? (fun t => t.name == nm && t.company_ticker == tick)

/-- Embedding of the duplicate-trade query of save_transaction_to_db: a
trade already exists with the same trader_id, transaction_date,
shares_traded and price_per_share (the dedup key omits transaction type and
ticker). -/
def trade_key_exists (trs : List TradeRec) (tid : Nat) (d : TxData) : Bool :=
  trs.any (fun tr => tr.trader_id == tid
    && tr.transaction_date == d.transaction_date
    && tr.shares_traded == d.shares
    && tr.price_per_share == d.price_per_share)

/-- Embedding of the Trade(...) constructor call of save_transaction_to_db;
the enrichment columns start null. -/
def new_trade (tid : Nat) (d : TxData) : TradeRec :=
  { trader_id := tid, company_ticker := d.ticker,
    transaction_date := d.transaction_date,
    transaction_type := d.transaction_type,
    shares_traded := d.shares, price_per_share := d.price_per_share,
    total_value := d.total_value,
    current_price := none, return_30d := none, return_90d := none,
    return_1y := none }

/-- Embedding of the count query of save_transaction_to_db:
query(Trade).filter(trader_id == tid).count(). -/
def count_trades_of (trs : List TradeRec) (tid : Nat) : Nat :=
  (trs.filter (fun tr => tr.trader_id == tid)).length

/-- Embedding of the ORM attribute assignment trader.total_trades = n on the
row with the given id. -/
def set_total_trades (ts : List TraderRec) (tid n : Nat) : List TraderRec :=
  ts.map (fun t => if t.trader_id == tid then { t with total_trades := n } else t)

/-- Embedding of the insert path of save_transaction_to_db: append the new
trade, then set the trader's total_trades to the session count (which,
after autoflush, already includes the new row) plus one. -/
def insert_trade (st : Store) (t : TraderRec) (d : TxData) : Store :=
  let trades := st.trades ++ [new_trade t.trader_id d]
  { st with
    trades := trades,
    traders := set_total_trades st.traders t.trader_id
      (count_trades_of trades t.trader_id + 1) }

/-- Embedding of ComprehensiveSECIngestion.save_transaction_to_db
(comprehensive_sec_ingestion.py), happy path: resolve the trader by exact
(name, ticker), creating it with a fresh id if absent; then treat the
insert as a no-op success when the dedup key already exists, otherwise
insert.  process_all_sec_data.save_transaction has the same structure. -/
def save_transaction_to_db (st : Store) (d : TxData) : Store × Bool :=
  match find_trader st.traders d.owner_name d.ticker with
  | some trader =>
    if trade_key_exists st.trades trader.trader_id d then (st, true)
    else (insert_trade st trader d, true)
  | none =>
    let trader : TraderRec :=
      { trader_id := st.next_trader_id, name := d.owner_name,
        title := d.owner_title, company_ticker := d.ticker,
        company_name := d.company_name,
        relationship_to_company := d.owner_title, total_trades := 0 }
    let st1 : Store :=
      { st with
        traders := st.traders ++ [trader],
        next_trader_id := st.next_trader_id + 1 }
    if trade_key_exists st1.trades trader.trader_id d then (st1, true)
    else (insert_trade st1 trader d, true)

/-- Embedding of one ingestion run over a period bundle: the per-record
loop of process_filing_data feeding save_transaction_to_db in source
order. -/
def ingest_bundle (st : Store) (b : List TxData) : Store :=
  b.foldl (fun s d => (save_transaction_to_db s d).fst) st

/-- Empty database state, sequences starting at one as in the source
schema. -/
def empty_store : Store := { traders := [], trades := [], next_trader_id := 1 }

/-- Case-insensitive uniqueness check on the trader table, written from the
spec's words for refinement comparison: no two rows agree on
(name, ticker) up to case. -/
def distinct_ci_keys : List TraderRec → Bool
  | [] => true
  | t :: rest =>
    rest.all (fun u => !(py_upper t.name == py_upper u.name
      && py_upper t.company_ticker == py_upper u.company_ticker))
    && distinct_ci_keys rest

/-- Case-sensitive uniqueness check on the trader table: no two rows agree
exactly on (name, ticker).  This is the key comparison the source queries
actually perform. -/
def distinct_cs_keys : List TraderRec → Bool
  | [] => true
  | t :: rest =>
    rest.all (fun u => !(t.name == u.name && t.company_ticker == u.company_ticker))
    && distinct_cs_keys rest

/-- Embedding of Python str.isalnum: nonempty and every character
alphanumeric. -/
def py_isalnum (s : String) : Bool :=
  s != "" && s.data.all Char.isAlphanum

/-- Embedding of the ticker validity test of
RobustSECProcessor.create_company_mapping: truthy (nonempty), not a reserved
placeholder token, length at most six, alphanumeric. -/
def valid_ticker (ticker : String) : Bool :=
  ticker != ""
    && !(["NA", "NONE", "N/A", "", "NAN", "NULL"].contains ticker)
    && decide (ticker.length ≤ 6)
    && py_isalnum ticker

/-- Embedding of one row of RobustSECProcessor.create_company_mapping:
strip and uppercase the issuer trading symbol; when it is valid, map the
filing to (issuer name truncated to 100 characters, the symbol); otherwise
the filing gets no entry and its transactions are later dropped. -/
def create_company_mapping_entry (companyName rawSymbol : String) :
    Option (String × String) :=
  let ticker := py_upper (py_strip rawSymbol)
  if valid_ticker ticker then some (py_take (py_strip companyName) 100, ticker)
  else none

/-- Embedding of the corporate-suffix removal of
process_all_sec_data.extract_transaction_data: str.replace removes every
occurrence of CORP, then INC, then LLC. -/
def strip_corp_suffixes (t : String) : String :=
  py_replace (py_replace (py_replace t "CORP" "") "INC" "") "LLC" ""

/-- Embedding of the pseudo-ticker fallback of
process_all_sec_data.extract_transaction_data: from the owner name take the
first four letters of the first word plus the first two of the second
(or the first six letters of a single word), uppercase, remove corporate
suffixes, and drop the record entirely when fewer than two characters
remain (or the name has no words at all). -/
def derive_pseudo_ticker (ownerName : String) : Option String :=
  match py_split_ws ownerName with
  | [] => none
  | [w] =>
    let t := strip_corp_suffixes (py_upper (py_take w 6))
    if t.length < 2 then none else some t
  | w1 :: w2 :: _ =>
    let t := strip_corp_suffixes (py_upper (py_take w1 4 ++ py_take w2 2))
    if t.length < 2 then none else some t

/-- Embedding of one row's update in
calculate_performance.calculate_trade_returns: when current_price is null,
the SQL statement fills current_price and the three return horizons from
fresh draws of the database RANDOM() generator; r supplies the draws (the
k-th draw of the statement, four per row). -/
def apply_random_returns (r : Nat → ℚ) (i : Nat) (t : TradeRec) : TradeRec :=
  match t.current_price with
  | some _ => t
  | none =>
    { t with
      current_price :=
        some (t.price_per_share * (1 + (r (4 * i) - (1 / 2 : ℚ)) * (2 / 10 : ℚ))),
      return_30d := some ((r (4 * i + 1) - (1 / 2 : ℚ)) * 20),
      return_90d := some ((r (4 * i + 2) - (1 / 2 : ℚ)) * 30),
      return_1y := some ((r (4 * i + 3) - (1 / 2 : ℚ)) * 50) }

/-- Row-by-row application of the UPDATE, i numbering the rows so that each
row consumes its own draws. -/
def sql_update_rows (r : Nat → ℚ) (i : Nat) : List TradeRec → List TradeRec
  | [] => []
  | t :: rest => apply_random_returns r i t :: sql_update_rows r (i + 1) rest

/-- Embedding of the whole UPDATE of
calculate_performance.calculate_trade_returns over the trades table. -/
def sql_calculate_trade_returns (r : Nat → ℚ) (trades : List TradeRec) :
    List TradeRec :=
  sql_update_rows r 0 trades

/-- Performance columns of a freshly created trader row (schema defaults). -/
def base_perf : TraderPerf :=
  { total_trades := 0, total_profit_loss := 0, win_rate := 0,
    avg_return_30d := 0, avg_return_90d := 0, avg_return_1y := 0,
    performance_score := 0, last_calculated := none, updated_at := none }

/-- First buy trade of the spec's aggregation scenario: 100 shares at
price 10, current price 12, populated positive 30-day return. -/
def scenario_buy1 : TradeRec :=
  { trader_id := 1, company_ticker := "ABC", transaction_date := 100,
    transaction_type := "BUY", shares_traded := 100, price_per_share := 10,
    total_value := 1000, current_price := some 12, return_30d := some 20,
    return_90d := none, return_1y := none }

/-- Second buy trade of the spec's aggregation scenario: 50 shares at
price 20, current price 18, populated negative 30-day return. -/
def scenario_buy2 : TradeRec :=
  { trader_id := 1, company_ticker := "ABC", transaction_date := 101,
    transaction_type := "BUY", shares_traded := 50, price_per_share := 20,
    total_value := 1000, current_price := some 18, return_30d := some (-10),
    return_90d := none, return_1y := none }

/-- A sell-classified trade with a populated 30-day return and no
enrichment prices. -/
def scenario_sell : TradeRec :=
  { trader_id := 2, company_ticker := "ABC", transaction_date := 102,
    transaction_type := "SELL", shares_traded := 10, price_per_share := 5,
    total_value := 50, current_price := none, return_30d := some 4,
    return_90d := none, return_1y := none }

/-- Prior performance columns with nonzero values, to observe which columns
a recompute touches. -/
def prior_perf : TraderPerf :=
  { total_trades := 9, total_profit_loss := 55, win_rate := 7,
    avg_return_30d := 3, avg_return_90d := 4, avg_return_1y := 5,
    performance_score := 6, last_calculated := some 33, updated_at := some 33 }

/-- A buy trade with populated 30-day and 90-day returns and no current
price, for exercising the composite-score formula. -/
def c6_buy : TradeRec :=
  { trader_id := 3, company_ticker := "ABC", transaction_date := 103,
    transaction_type := "BUY", shares_traded := 10, price_per_share := 5,
    total_value := 50, current_price := none, return_30d := some 10,
    return_90d := some 10, return_1y := none }

/-- A ledger of ten trades of which exactly one is buy-classified: the
count of all trades (10) and the count of buy trades (1) disagree. -/
def c6_trades : List TradeRec := c6_buy :: List.replicate 9 scenario_sell

/-- The transaction d is fully represented in the store: the trader lookup
of save_transaction_to_db resolves, and the trade dedup key of d for that
trader is already present.  In this situation save_transaction_to_db is a
no-op reported as success. -/
def done (st : Store) (d : TxData) : Prop :=
  ∃ t, find_trader st.traders d.owner_name d.ticker = some t ∧
    trade_key_exists st.trades t.trader_id d = true

/-- A concrete transaction record for witnesses. -/
def w_tx : TxData :=
  { company_name := "Acme", ticker := "ACME", owner_name := "Jane Doe",
    owner_title := "CEO", transaction_date := 200, transaction_type := "BUY",
    shares := 10, price_per_share := 3, total_value := 30 }

/-- The trader row that ingesting w_tx into an empty store creates (the
total_trades counter reflects the session count-plus-one of the insert
path). -/
def w_trader : TraderRec :=
  { trader_id := 1, name := "Jane Doe", title := "CEO",
    company_ticker := "ACME", company_name := "Acme",
    relationship_to_company := "CEO", total_trades := 2 }

/-- A store that already contains w_tx's trader and trade row. -/
def w_store : Store :=
  { traders := [w_trader], trades := [new_trade 1 w_tx], next_trader_id := 2 }

/-- Transaction by the owner John Smith. -/
def c2_tx1 : TxData :=
  { company_name := "Acme", ticker := "ABC", owner_name := "John Smith",
    owner_title := "CFO", transaction_date := 201, transaction_type := "BUY",
    shares := 5, price_per_share := 2, total_value := 10 }

/-- Transaction by the same owner with the name differing only in case. -/
def c2_tx2 : TxData :=
  { company_name := "Acme", ticker := "ABC", owner_name := "JOHN SMITH",
    owner_title := "CFO", transaction_date := 202, transaction_type := "BUY",
    shares := 6, price_per_share := 2, total_value := 12 }

/-- A trades row whose enrichment columns are still null, as targeted by
the WHERE clause of calculate_performance.calculate_trade_returns. -/
def c9_trade : TradeRec :=
  { trader_id := 4, company_ticker := "ABC", transaction_date := 104,
    transaction_type := "BUY", shares_traded := 10, price_per_share := 5,
    total_value := 50, current_price := none, return_30d := none,
    return_90d := none, return_1y := none }

/-- Claim C3, counterexample: comprehensive_sec_ingestion's code map has no
entry for the code C, so its normalization returns OTHER for C, not
CONVERSION as the claim states. -/
theorem c3_counterexample :
    convert_transaction_code "C" = "OTHER" ∧ ("OTHER" : String) ≠ "CONVERSION" := by
  decide

/-- Claim C3 as amended: the robust processor's normalization maps A and P
to BUY, D and S to SELL, M to OPTION_EXERCISE, F to TAX_WITHHOLDING, G to
GIFT, C to CONVERSION, and every other code (mapped or not, e.g. Z) to
OTHER; comprehensive_sec_ingestion's normalization agrees except that its
map omits C, which therefore yields OTHER. -/
theorem c3_amended :
    (∀ c : String, c ∉ robust_code_map.map Prod.fst →
      robust_convert_code c = "OTHER") ∧
    (∀ c : String, py_upper c ∉ comprehensive_code_map.map Prod.fst →
      convert_transaction_code c = "OTHER") ∧
    (robust_convert_code "A" = "BUY" ∧ robust_convert_code "P" = "BUY" ∧
     robust_convert_code "D" = "SELL" ∧ robust_convert_code "S" = "SELL" ∧
     robust_convert_code "M" = "OPTION_EXERCISE" ∧
     robust_convert_code "F" = "TAX_WITHHOLDING" ∧
     robust_convert_code "G" = "GIFT" ∧
     robust_convert_code "C" = "CONVERSION" ∧
     robust_convert_code "Z" = "OTHER" ∧
     robust_code_map.all (fun p =>
       (["A", "P", "D", "S", "M", "F", "G", "C"] : List String).contains p.fst
         || p.snd == "OTHER") = true ∧
     convert_transaction_code "A" = "BUY" ∧
     convert_transaction_code "P" = "BUY" ∧
     convert_transaction_code "D" = "SELL" ∧
     convert_transaction_code "S" = "SELL" ∧
     convert_transaction_code "M" = "OPTION_EXERCISE" ∧
     convert_transaction_code "F" = "TAX_WITHHOLDING" ∧
     convert_transaction_code "G" = "GIFT" ∧
     convert_transaction_code "C" = "OTHER" ∧
     convert_transaction_code "Z" = "OTHER" ∧
     comprehensive_code_map.all (fun p =>
       (["A", "P", "D", "S", "M", "F", "G"] : List String).contains p.fst
         || p.snd == "OTHER") = true) := by
  refine ⟨?_, ?_, by decide⟩
  · intro c hc
    have hnone : robust_code_map.find? (fun p => p.fst == c) = none := by
      apply List.find?_eq_none.mpr
      intro p hp
      simp only [beq_iff_eq]
      intro heq
      exact hc (heq ▸ List.mem_map_of_mem Prod.fst hp)
    simp [robust_convert_code, dict_get, hnone]
  · intro c hc
    have hnone : comprehensive_code_map.find? (fun p => p.fst == py_upper c) = none := by
      apply List.find?_eq_none.mpr
      intro p hp
      simp only [beq_iff_eq]
      intro heq
      exact hc (heq ▸ List.mem_map_of_mem Prod.fst hp)
    simp [convert_transaction_code, dict_get, hnone]

/-- Witness for c3_amended at the concrete unmapped code Q. -/
theorem c3_amended_witness : robust_convert_code "Q" = "OTHER" :=
  c3_amended.1 "Q" (by decide)

/-- Claim C4, counterexample: a record with share count exactly MAX_SHARES
and the positive in-bounds price MAX_PRICE is rejected, because the total
value 10^11 exceeds MAX_TOTAL_VALUE; the claim asserts it is accepted. -/
theorem c4_counterexample :
    validate_trade_data MAX_SHARES MAX_PRICE = false ∧
    (0 : ℚ) < MAX_PRICE ∧ MAX_PRICE ≤ MAX_PRICE := by
  with_unfolding_all decide

/-- Claim C4 as amended: validation accepts exactly when share count is in
(0, MAX_SHARES], price is in (0, MAX_PRICE] and shares x price is at most
MAX_TOTAL_VALUE; share count 0, price 0 and share count MAX_SHARES + 1 are
rejected, and share count exactly MAX_SHARES is accepted for a positive
price only when the total-value bound also holds (e.g. price 100). -/
theorem c4_amended :
    (∀ s p : ℚ, validate_trade_data s p = true ↔
      (0 < s ∧ s ≤ MAX_SHARES ∧ 0 < p ∧ p ≤ MAX_PRICE ∧
        s * p ≤ MAX_TOTAL_VALUE)) ∧
    validate_trade_data 0 5 = false ∧
    validate_trade_data 5 0 = false ∧
    validate_trade_data (MAX_SHARES + 1) 5 = false ∧
    validate_trade_data MAX_SHARES 100 = true := by
  refine ⟨?_, by with_unfolding_all decide⟩
  intro s p
  unfold validate_trade_data
  split_ifs with h1 h2 h3
  · simp only [Bool.false_eq_true, false_iff]
    rintro ⟨c1, c2, -, -, -⟩
    rcases h1 with h | h
    · linarith
    · linarith
  · simp only [Bool.false_eq_true, false_iff]
    rintro ⟨-, -, c3, c4, -⟩
    rcases h2 with h | h
    · linarith
    · linarith
  · simp only [Bool.false_eq_true, false_iff]
    rintro ⟨-, -, -, -, c5⟩
    linarith
  · push_neg at h1 h2
    simp only [true_iff]
    push_neg at h3
    exact ⟨h1.1, h1.2, h2.1, h2.2, h3⟩

/-- Witness for c4_amended: the acceptance characterization applied at the
concrete in-bounds record of 600 shares at price 20. -/
theorem c4_amended_witness : validate_trade_data 600 20 = true :=
  (c4_amended.1 600 20).mpr (by with_unfolding_all decide)

/-- Claim C7, confirmed: for the trader whose trades are exactly the two
buy trades of the spec scenario (100 shares at 10 with current price 12 and
a positive 30-day return, 50 shares at 20 with current price 18 and a
negative 30-day return), the recompute yields win_rate 50 and total
profit/loss (12-10)x100 + (18-20)x50 = 100. -/
theorem c7_aggregation_scenario :
    (0 : ℚ) < (scenario_buy1.return_30d.getD 0) ∧
    (scenario_buy2.return_30d.getD 0) < 0 ∧
    (calculate_trader_performance 7 base_perf
      [scenario_buy1, scenario_buy2]).win_rate = 50 ∧
    (calculate_trader_performance 7 base_perf
      [scenario_buy1, scenario_buy2]).total_profit_loss = 100 := by
  with_unfolding_all decide

/-- Claim C10, confirmed: when a trader has no trades, or no buy-classified
trades, calculate_trader_performance returns early and every stored
performance column (total_trades, win_rate, the average returns,
total_profit_loss, performance_score, last_calculated, updated_at) keeps
its prior value. -/
theorem c10_no_buy_trades_frame (now : Nat) (p : TraderPerf)
    (trades : List TradeRec)
    (h : trades.isEmpty = true ∨ (buy_trades trades).isEmpty = true) :
    calculate_trader_performance now p trades = p := by
  rw [calculate_trader_performance]
  rcases h with h | h
  · simp [h]
  · cases hE : trades.isEmpty with
    | true => simp
    | false => simp [h]

/-- Witness for c10_no_buy_trades_frame: a trader holding one sell trade
with nonzero prior performance columns is left untouched. -/
theorem c10_no_buy_trades_frame_witness :
    calculate_trader_performance 7 prior_perf [scenario_sell] = prior_perf :=
  c10_no_buy_trades_frame 7 prior_perf [scenario_sell] (Or.inr (by decide))

/-- Claim C5, counterexample: for a trader with no buy-classified trades
(here one sell trade, which has a populated 30-day return) the recompute
returns early and win_rate keeps its prior value 7 instead of being set
to 0 as the claim states for every trader. -/
theorem c5_counterexample :
    (buy_trades [scenario_sell]).isEmpty = true ∧
    scenario_sell.return_30d.isSome = true ∧
    prior_perf.win_rate = 7 ∧
    (calculate_trader_performance 7 prior_perf [scenario_sell]).win_rate = 7 ∧
    (7 : ℚ) ≠ 0 := by
  with_unfolding_all decide

/-- Claim C5 as amended: for every trader with at least one buy-classified
trade, the recompute sets win_rate to the number of buy trades with a
populated positive 30-day return divided by the number of buy trades with
any populated 30-day return, times 100, and to 0 when no buy trade has
30-day return data; traders with no buy trades are left unchanged (claim
C10). -/
theorem c5_amended (now : Nat) (p : TraderPerf) (trades : List TradeRec)
    (h : (buy_trades trades).isEmpty = false) :
    (calculate_trader_performance now p trades).win_rate =
      if (returns_30d trades).isEmpty then 0
      else (((returns_30d trades).filter (fun r => 0 < r)).length : ℚ)
        / ((returns_30d trades).length : ℚ) * 100 := by
  have ht : trades.isEmpty = false := by
    cases trades with
    | nil => simp [buy_trades] at h
    | cons a l => rfl
  rw [calculate_trader_performance]
  simp [ht, h, win_rate_calc]

/-- Witness for c5_amended at the two-buy-trade scenario ledger. -/
theorem c5_amended_witness :
    (calculate_trader_performance 7 base_perf
        [scenario_buy1, scenario_buy2]).win_rate =
      if (returns_30d [scenario_buy1, scenario_buy2]).isEmpty then 0
      else (((returns_30d [scenario_buy1, scenario_buy2]).filter
          (fun r => 0 < r)).length : ℚ)
        / ((returns_30d [scenario_buy1, scenario_buy2]).length : ℚ) * 100 :=
  c5_amended 7 base_perf [scenario_buy1, scenario_buy2] (by decide)

/-- Claim C6, counterexample: on a ledger of ten trades of which one is a
buy, the source computes the trade-count factor from the one buy trade
(score 34.3) while the claim's formula uses all ten trades (score 37). -/
theorem c6_counterexample :
    c6_trades.length = 10 ∧ (buy_trades c6_trades).length = 1 ∧
    (calculate_trader_performance 7 base_perf c6_trades).performance_score
      = 343 / 10 ∧
    spec_performance_score c6_trades = 37 ∧
    ((343 : ℚ) / 10) ≠ 37 := by
  with_unfolding_all decide

/-- Claim C6 as amended: for every trader with at least one trade and one
buy-classified trade, performance_score = 0.4 x avg_return_90d +
0.3 x win_rate + 0.3 x min(buy_trade_count / 10, 1) x 10, where the count
in the scale factor is of buy-classified trades, not of all trades. -/
theorem c6_amended (now : Nat) (p : TraderPerf) (trades : List TradeRec)
    (h1 : trades.isEmpty = false) (h2 : (buy_trades trades).isEmpty = false) :
    (calculate_trader_performance now p trades).performance_score =
      mean_or_zero (returns_90d trades) * (4 / 10 : ℚ)
        + win_rate_calc trades * (3 / 10 : ℚ)
        + min (((buy_trades trades).length : ℚ) / 10) 1 * 10 * (3 / 10 : ℚ) := by
  rw [calculate_trader_performance]
  simp [h1, h2, performance_score_calc, trades_factor]

/-- Witness for c6_amended at the ten-trade, one-buy ledger. -/
theorem c6_amended_witness :
    (calculate_trader_performance 7 base_perf c6_trades).performance_score =
      mean_or_zero (returns_90d c6_trades) * (4 / 10 : ℚ)
        + win_rate_calc c6_trades * (3 / 10 : ℚ)
        + min (((buy_trades c6_trades).length : ℚ) / 10) 1 * 10 * (3 / 10 : ℚ) :=
  c6_amended 7 base_perf c6_trades (by decide) (by decide)

/-- Claim C8, counterexample: for a filing whose security-symbol field is
NA, the robust processor's ticker resolution produces no mapping entry at
all (the filing's transactions are later dropped); no fallback
pseudo-ticker is derived, contrary to the claim. -/
theorem c8_counterexample :
    valid_ticker (py_upper (py_strip "NA")) = false ∧
    create_company_mapping_entry "Acme Corp" "NA" = none := by
  decide

/-- Claim C8 as amended: the robust processor uses the filing's explicit
security-symbol field (stripped and uppercased) exactly when it is
non-empty, alphanumeric, of length at most 6 and not a reserved
placeholder, and otherwise drops the filing; the deterministic owner-name
prefix fallback lives in process_all_sec_data, which ignores the symbol
field, and its pseudo-ticker always has at least two characters (never
empty), the record being dropped otherwise. -/
theorem c8_amended :
    (∀ name sym : String, valid_ticker (py_upper (py_strip sym)) = true →
      create_company_mapping_entry name sym
        = some (py_take (py_strip name) 100, py_upper (py_strip sym))) ∧
    (∀ name sym : String, valid_ticker (py_upper (py_strip sym)) = false →
      create_company_mapping_entry name sym = none) ∧
    (∀ owner t : String, derive_pseudo_ticker owner = some t → 2 ≤ t.length) ∧
    derive_pseudo_ticker "Smith John" = some "SMITJO" := by
  refine ⟨?_, ?_, ?_, by decide⟩
  · intro name sym h
    simp [create_company_mapping_entry, h]
  · intro name sym h
    simp [create_company_mapping_entry, h]
  · intro owner t h
    unfold derive_pseudo_ticker at h
    rcases hws : py_split_ws owner with - | ⟨w, - | ⟨w2, rest⟩⟩ <;>
      rw [hws] at h <;> simp only [] at h
    · exact absurd h (by simp)
    · split_ifs at h with hlt
      cases h
      omega
    · split_ifs at h with hlt
      cases h
      omega

/-- Witness for c8_amended: the valid-symbol path applied at a concrete
filing with a lowercase padded symbol. -/
theorem c8_amended_witness :
    create_company_mapping_entry "Tesla Inc" "tsla "
      = some (py_take (py_strip "Tesla Inc") 100, py_upper (py_strip "tsla ")) :=
  c8_amended.1 "Tesla Inc" "tsla " (by decide)

/-- Claim C9, code bug: calculate_performance.calculate_trade_returns fills
the return and current-price columns of every row with null current_price
from fresh draws of the database RANDOM() generator, so the persisted
returns depend on the draws and not only on the ledger: with all draws 0
the row's 30-day return becomes -10, with all draws 1 it becomes +10.  The
spec explicitly excludes random generation of these fields. -/
theorem c9_random_return_generation :
    (sql_calculate_trade_returns (fun _ => 0) [c9_trade]).map
        (fun t => t.return_30d) = [some (-10)] ∧
    (sql_calculate_trade_returns (fun _ => 1) [c9_trade]).map
        (fun t => t.return_30d) = [some 10] ∧
    sql_calculate_trade_returns (fun _ => 0) [c9_trade]
      ≠ sql_calculate_trade_returns (fun _ => 1) [c9_trade] := by
  with_unfolding_all decide

theorem find_trader_append (ts ex : List TraderRec) (nm tk : String)
    (t : TraderRec) (h : find_trader ts nm tk = some t) :
    find_trader (ts ++ ex) nm tk = some t := by
  induction ts with
  | nil => simp [find_trader] at h
  | cons a l ih =>
    rw [find_trader, List.find?] at h
    rw [find_trader, List.cons_append, List.find?]
    cases hp : (a.name == nm && a.company_ticker == tk) with
    | true => rw [hp] at h; simpa using h
    | false => rw [hp] at h; exact ih h

theorem find_trader_set_total (ts : List TraderRec) (nm tk : String)
    (tid n : Nat) (t : TraderRec) (h : find_trader ts nm tk = some t) :
    ∃ u, find_trader (set_total_trades ts tid n) nm tk = some u ∧
      u.trader_id = t.trader_id := by
  induction ts with
  | nil => simp [find_trader] at h
  | cons a l ih =>
    rw [find_trader, List.find?] at h
    rw [set_total_trades, List.map_cons, find_trader, List.find?]
    have hname : (if a.trader_id == tid then { a with total_trades := n }
        else a).name = a.name := by split <;> rfl
    have htick : (if a.trader_id == tid then { a with total_trades := n }
        else a).company_ticker = a.company_ticker := by split <;> rfl
    have hid : (if a.trader_id == tid then { a with total_trades := n }
        else a).trader_id = a.trader_id := by split <;> rfl
    rw [hname, htick]
    cases hp : (a.name == nm && a.company_ticker == tk) with
    | true =>
      rw [hp] at h
      refine ⟨_, rfl, ?_⟩
      rw [hid]
      simpa using congrArg TraderRec.trader_id (Option.some.inj h)
    | false =>
      rw [hp] at h
      exact ih h

theorem find_trader_append_new (ts : List TraderRec) (nm tk : String)
    (nt : TraderRec) (hn : find_trader ts nm tk = none)
    (h1 : nt.name = nm) (h2 : nt.company_ticker = tk) :
    find_trader (ts ++ [nt]) nm tk = some nt := by
  induction ts with
  | nil =>
    rw [find_trader]
    simp [List.find?, h1, h2]
  | cons a l ih =>
    rw [find_trader, List.find?] at hn
    rw [find_trader, List.cons_append, List.find?]
    cases hp : (a.name == nm && a.company_ticker == tk) with
    | true => rw [hp] at hn; cases hn
    | false =>
      rw [hp] at hn
      exact ih hn

theorem trade_key_exists_append (trs ex : List TradeRec) (tid : Nat)
    (d : TxData) (h : trade_key_exists trs tid d = true) :
    trade_key_exists (trs ++ ex) tid d = true := by
  rw [trade_key_exists] at h ⊢
  rw [List.any_append, h, Bool.true_or]

theorem trade_key_exists_new (trs : List TradeRec) (tid : Nat) (d : TxData) :
    trade_key_exists (trs ++ [new_trade tid d]) tid d = true := by
  rw [trade_key_exists, List.any_append, Bool.or_eq_true]
  right
  simp [new_trade]

theorem save_noop (st : Store) (d : TxData) (h : done st d) :
    save_transaction_to_db st d = (st, true) := by
  obtain ⟨t, hf, hk⟩ := h
  rw [save_transaction_to_db, hf]
  simp [hk]

theorem done_insert_found (st : Store) (t : TraderRec) (e d : TxData)
    (h : done st d) : done (insert_trade st t e) d := by
  obtain ⟨u, hf, hk⟩ := h
  obtain ⟨v, hv, hid⟩ := find_trader_set_total st.traders d.owner_name
    d.ticker t.trader_id (count_trades_of (st.trades ++ [new_trade t.trader_id e])
      t.trader_id + 1) u hf
  refine ⟨v, hv, ?_⟩
  rw [hid]
  exact trade_key_exists_append st.trades [new_trade t.trader_id e] u.trader_id d hk

theorem done_save (st : Store) (e d : TxData) (h : done st d) :
    done (save_transaction_to_db st e).fst d := by
  cases hfe : find_trader st.traders e.owner_name e.ticker with
  | some te =>
    rw [save_transaction_to_db, hfe]
    cases hke : trade_key_exists st.trades te.trader_id e with
    | true => simp only [hke]; simpa using h
    | false =>
      simp only [hke, Bool.false_eq_true, if_false]
      exact done_insert_found st te e d h
  | none =>
    rw [save_transaction_to_db, hfe]
    obtain ⟨u, hf, hk⟩ := h
    have hfind := find_trader_append st.traders
      [{ trader_id := st.next_trader_id, name := e.owner_name,
         title := e.owner_title, company_ticker := e.ticker,
         company_name := e.company_name,
         relationship_to_company := e.owner_title, total_trades := 0 }]
      d.owner_name d.ticker u hf
    cases hke : trade_key_exists st.trades st.next_trader_id e with
    | true => simp only [hke]; simp; exact ⟨u, hfind, hk⟩
    | false =>
      simp only [hke, Bool.false_eq_true, if_false]
      exact done_insert_found _ _ e d ⟨u, hfind, hk⟩

theorem done_after_save (st : Store) (d : TxData) :
    done (save_transaction_to_db st d).fst d := by
  cases hfe : find_trader st.traders d.owner_name d.ticker with
  | some t =>
    rw [save_transaction_to_db, hfe]
    cases hke : trade_key_exists st.trades t.trader_id d with
    | true => simp only [hke]; simp; exact ⟨t, hfe, hke⟩
    | false =>
      simp only [hke, Bool.false_eq_true, if_false]
      obtain ⟨v, hv, hid⟩ := find_trader_set_total st.traders d.owner_name
        d.ticker t.trader_id
        (count_trades_of (st.trades ++ [new_trade t.trader_id d]) t.trader_id + 1)
        t hfe
      refine ⟨v, hv, ?_⟩
      rw [hid]
      exact trade_key_exists_new st.trades t.trader_id d
  | none =>
    rw [save_transaction_to_db, hfe]
    have hfind : find_trader (st.traders ++
        [{ trader_id := st.next_trader_id, name := d.owner_name,
           title := d.owner_title, company_ticker := d.ticker,
           company_name := d.company_name,
           relationship_to_company := d.owner_title, total_trades := 0 }])
        d.owner_name d.ticker = some
        { trader_id := st.next_trader_id, name := d.owner_name,
          title := d.owner_title, company_ticker := d.ticker,
          company_name := d.company_name,
          relationship_to_company := d.owner_title, total_trades := 0 } :=
      find_trader_append_new st.traders d.owner_name d.ticker _ hfe rfl rfl
    cases hke : trade_key_exists st.trades st.next_trader_id d with
    | true => simp only [hke]; simp; exact ⟨_, hfind, hke⟩
    | false =>
      simp only [hke, Bool.false_eq_true, if_false]
      obtain ⟨v, hv, hid⟩ := find_trader_set_total _ d.owner_name d.ticker
        st.next_trader_id _ _ hfind
      refine ⟨v, hv, ?_⟩
      rw [hid]
      exact trade_key_exists_new st.trades st.next_trader_id d

theorem ingest_bundle_nil (st : Store) : ingest_bundle st [] = st := rfl

theorem ingest_bundle_cons (st : Store) (e : TxData) (rest : List TxData) :
    ingest_bundle st (e :: rest)
      = ingest_bundle (save_transaction_to_db st e).fst rest := rfl

theorem done_ingest_mono (b : List TxData) (st : Store) (d : TxData)
    (h : done st d) : done (ingest_bundle st b) d := by
  induction b generalizing st with
  | nil => exact h
  | cons e rest ih =>
    rw [ingest_bundle_cons]
    exact ih _ (done_save st e d h)

theorem done_ingest (b : List TxData) (st : Store) (d : TxData) (hd : d ∈ b) :
    done (ingest_bundle st b) d := by
  induction b generalizing st with
  | nil => cases hd
  | cons e rest ih =>
    rw [ingest_bundle_cons]
    rcases List.mem_cons.mp hd with rfl | hmem
    · exact done_ingest_mono rest _ d (done_after_save st d)
    · exact ih _ hmem

theorem ingest_noop (b : List TxData) (st : Store)
    (h : ∀ d ∈ b, done st d) : ingest_bundle st b = st := by
  induction b with
  | nil => rfl
  | cons e rest ih =>
    rw [ingest_bundle_cons, save_noop st e (h e (List.mem_cons_self e rest))]
    exact ih (fun d hd => h d (List.mem_cons_of_mem e hd))

/-- Claim C1, confirmed: re-ingesting a period bundle over the store
produced by its first ingestion changes nothing — the trade and trader
tables (and hence their row counts) are exactly those of the first run —
and, pointwise, any transaction whose dedup key (trader resolved by the
exact identity lookup, transaction date, share count, price per share)
already has a matching trade row makes save_transaction_to_db a no-op
reported as success. -/
theorem c1_idempotent_reingestion :
    (∀ (st : Store) (b : List TxData),
      ingest_bundle (ingest_bundle st b) b = ingest_bundle st b ∧
      (ingest_bundle (ingest_bundle st b) b).trades.length
        = (ingest_bundle st b).trades.length ∧
      (ingest_bundle (ingest_bundle st b) b).traders.length
        = (ingest_bundle st b).traders.length) ∧
    (∀ (st : Store) (d : TxData) (t : TraderRec),
      find_trader st.traders d.owner_name d.ticker = some t →
      trade_key_exists st.trades t.trader_id d = true →
      save_transaction_to_db st d = (st, true)) := by
  constructor
  · intro st b
    have heq : ingest_bundle (ingest_bundle st b) b = ingest_bundle st b :=
      ingest_noop b (ingest_bundle st b) (fun d hd => done_ingest b st d hd)
    exact ⟨heq, by rw [heq], by rw [heq]⟩
  · intro st d t hf hk
    exact save_noop st d ⟨t, hf, hk⟩

/-- Witness for c1_idempotent_reingestion: on a store already holding the
trader and the dedup key of the concrete transaction w_tx, the save is a
no-op success. -/
theorem c1_idempotent_reingestion_witness :
    save_transaction_to_db w_store w_tx = (w_store, true) :=
  c1_idempotent_reingestion.2 w_store w_tx w_trader (by decide) (by decide)

theorem all_key_map (l : List TraderRec) (f : TraderRec → TraderRec)
    (hf : ∀ u, (f u).name = u.name ∧ (f u).company_ticker = u.company_ticker)
    (nm tk : String) :
    (l.map f).all (fun u => !(nm == u.name && tk == u.company_ticker))
      = l.all (fun u => !(nm == u.name && tk == u.company_ticker)) := by
  induction l with
  | nil => rfl
  | cons b l ih =>
    simp only [List.map_cons, List.all_cons, (hf b).1, (hf b).2, ih]

theorem distinct_cs_map (l : List TraderRec) (f : TraderRec → TraderRec)
    (hf : ∀ u, (f u).name = u.name ∧ (f u).company_ticker = u.company_ticker) :
    distinct_cs_keys (l.map f) = distinct_cs_keys l := by
  induction l with
  | nil => rfl
  | cons a l ih =>
    simp only [List.map_cons, distinct_cs_keys, (hf a).1, (hf a).2, ih]
    rw [all_key_map l f hf a.name a.company_ticker]

theorem set_total_preserves_keys (t : TraderRec) (tid n : Nat) :
    ((fun u => if u.trader_id == tid then { u with total_trades := n }
      else u) t).name = t.name ∧
    ((fun u => if u.trader_id == tid then { u with total_trades := n }
      else u) t).company_ticker = t.company_ticker := by
  refine ⟨?_, ?_⟩ <;> simp only [] <;> split <;> rfl

theorem distinct_cs_set_total (ts : List TraderRec) (tid n : Nat) :
    distinct_cs_keys (set_total_trades ts tid n) = distinct_cs_keys ts := by
  rw [set_total_trades]
  exact distinct_cs_map ts _ (fun u => set_total_preserves_keys u tid n)

theorem distinct_cs_append (ts : List TraderRec) (nt : TraderRec)
    (h : distinct_cs_keys ts = true)
    (hn : ∀ t ∈ ts, ¬(t.name = nt.name ∧ t.company_ticker = nt.company_ticker)) :
    distinct_cs_keys (ts ++ [nt]) = true := by
  induction ts with
  | nil => simp [distinct_cs_keys]
  | cons a l ih =>
    rw [distinct_cs_keys, Bool.and_eq_true] at h
    rw [List.cons_append, distinct_cs_keys, Bool.and_eq_true, List.all_append]
    refine ⟨?_, ih h.2 (fun t ht => hn t (List.mem_cons_of_mem a ht))⟩
    rw [Bool.and_eq_true]
    refine ⟨h.1, ?_⟩
    have hna := hn a (List.mem_cons_self a l)
    simp only [List.all_cons, List.all_nil, Bool.and_true]
    by_cases h1 : a.name = nt.name
    · by_cases h2 : a.company_ticker = nt.company_ticker
      · exact absurd ⟨h1, h2⟩ hna
      · simp [h2]
    · simp [h1]

theorem find_trader_none (ts : List TraderRec) (nm tk : String)
    (h : find_trader ts nm tk = none) :
    ∀ t ∈ ts, ¬(t.name = nm ∧ t.company_ticker = tk) := by
  intro t ht hc
  have hnp := List.find?_eq_none.mp h t ht
  apply hnp
  rw [hc.1, hc.2]
  simp

theorem distinct_cs_save (st : Store) (d : TxData)
    (h : distinct_cs_keys st.traders = true) :
    distinct_cs_keys (save_transaction_to_db st d).fst.traders = true := by
  cases hfe : find_trader st.traders d.owner_name d.ticker with
  | some t =>
    rw [save_transaction_to_db, hfe]
    cases hke : trade_key_exists st.trades t.trader_id d with
    | true => simp only [hke]; simpa using h
    | false =>
      simp only [hke, Bool.false_eq_true, if_false]
      rw [insert_trade]
      simpa [distinct_cs_set_total] using h
  | none =>
    rw [save_transaction_to_db, hfe]
    have happ : distinct_cs_keys (st.traders ++
        [{ trader_id := st.next_trader_id, name := d.owner_name,
           title := d.owner_title, company_ticker := d.ticker,
           company_name := d.company_name,
           relationship_to_company := d.owner_title, total_trades := 0 }]) = true :=
      distinct_cs_append st.traders _ h (find_trader_none st.traders _ _ hfe)
    cases hke : trade_key_exists st.trades st.next_trader_id d with
    | true => simp only [hke]; simpa using happ
    | false =>
      simp only [hke, Bool.false_eq_true, if_false]
      rw [insert_trade]
      simpa [distinct_cs_set_total] using happ

/-- Claim C2, counterexample: ingesting two transactions whose owner names
differ only in letter case (same ticker) creates two distinct trader rows
(surrogate ids 1 and 2) whose identity keys compare equal ignoring case, so
case-insensitive uniqueness of the identity key fails — the source lookup
compares names case-sensitively. -/
theorem c2_counterexample :
    (ingest_bundle empty_store [c2_tx1, c2_tx2]).traders.length = 2 ∧
    (ingest_bundle empty_store [c2_tx1, c2_tx2]).traders.map
      (fun t => t.trader_id) = [1, 2] ∧
    distinct_ci_keys (ingest_bundle empty_store [c2_tx1, c2_tx2]).traders
      = false := by
  with_unfolding_all decide

/-- Claim C2 as amended: after any sequence of ingestion operations over a
store whose trader identity keys are pairwise distinct under exact
(case-sensitive) comparison, they remain pairwise distinct: at most one
CanonicalTrader per exact (name, ticker) pair.  The case-insensitive form
of the claim fails (see the counterexample). -/
theorem c2_unique_identity_key (st : Store) (b : List TxData)
    (h : distinct_cs_keys st.traders = true) :
    distinct_cs_keys (ingest_bundle st b).traders = true := by
  induction b generalizing st with
  | nil => exact h
  | cons e rest ih =>
    rw [ingest_bundle_cons]
    exact ih _ (distinct_cs_save st e h)

/-- Witness for c2_unique_identity_key: ingesting the two case-variant
transactions into the empty store still yields exactly-distinct keys. -/
theorem c2_unique_identity_key_witness :
    distinct_cs_keys (ingest_bundle empty_store [c2_tx1, c2_tx2]).traders
      = true :=
  c2_unique_identity_key empty_store [c2_tx1, c2_tx2] (by decide)

end InsiderPlatform
